import Mathlib

set_option maxRecDepth 8192

/-!
Verification of the UTD Campus Assistant prototype.

This file gives a shallow embedding, in Lean 4, of the parts of the
repository that the checked properties talk about:

* `main.py`: the CSV ingestion adapters (`_load_grade_history_csv`,
  `_load_coursebook_csv`), the batching helper `batch_generator`, and the
  index load/build/persist routine `get_vector_store`;
* `filter_data.py`: the enrollment-record filter `filter_data_from_csv`;
* `api.py`: the `/query` route handler `ask_question`;
* `frontend.py`: the chat front end's per-request response handling.

Conventions of the embedding:

* A CSV row as produced by Python's `csv.DictReader` is an ordered
  association list from column name to cell string (`Row`); `row[k]`
  (which raises `KeyError` when `k` is absent) is modelled by an
  `Option`-valued lookup, and a raised exception is modelled by `none`
  propagating outward.  Column order of the dict is the list order.
  (The model assumes the stripped header names are distinct, which holds
  for the repository's data schemas; Python's dict would otherwise keep
  only the last duplicate.)
* Effects of `get_vector_store` (loading the local index, contacting S3,
  saving locally, archiving, uploading) are recorded in an event trace;
  the fallible external calls (local FAISS load, S3 download+unzip+load,
  archive/upload) are oracles in an `Env` record, `none`/`false` meaning
  the call raises.
* The third-party text splitter is an uninterpreted function field of
  `Env`; the FAISS store is modelled as the ordered list of
  (text, metadata) pairs added to it.
* `pandas.to_numeric(..., errors ... coerce)` is modelled on the decimal
  literals occurring in the data (optional sign, digits, optional
  fractional part, surrounding whitespace); anything else coerces to a
  missing value (`none`), matching the NaN a parse failure produces.
-/

namespace UTDCA

/-- A metadata value of a document's provenance mapping (Python dict values
are the source file name, the row index, etc.). -/
inductive MetaVal where
  | str (s : String)
  | nat (n : Nat)
  deriving DecidableEq

/-- A provenance mapping: ordered association list, as a Python dict. -/
abbrev Metadata := List (String × MetaVal)

/-- A LangChain `Document`: page content plus provenance metadata. -/
structure Document where
  page_content : String
  metadata : Metadata
  deriving DecidableEq

/-- A CSV row from `csv.DictReader`: ordered association list from column
name to cell text. -/
abbrev Row := List (String × String)

/-- `row[k]` lookup; `none` models a `KeyError`. -/
def lookup? (row : Row) (k : String) : Option String :=
  (row.find? (fun p => p.1 == k)).map (fun p => p.2)

/-- `row.get(k, d)`. -/
def getD (row : Row) (k d : String) : String :=
  (lookup? row k).getD d

/-- Whitespace characters stripped by Python's `str.strip()` (the ones
occurring in the data files). -/
def isSpaceChar (c : Char) : Bool :=
  c = ' ' || c = '\t' || c = '\n' || c = '\r'

/-- Python's `s.strip()`. -/
def trimStr (s : String) : String :=
  ⟨((s.toList.dropWhile isSpaceChar).reverse.dropWhile isSpaceChar).reverse⟩

/-- `\x7bk.strip(): v for k, v in row.items()\x7d` of `_load_grade_history_csv`. -/
def stripKeys (row : Row) : Row :=
  row.map (fun p => (trimStr p.1, p.2))

/-- The grade-count column names of the grade-history schema
(`main.py` line 67). -/
def gradeKeys : List String :=
  ["A+", "A", "A-", "B+", "B", "B-", "C+", "C", "C-", "D+", "D", "D-", "F", "W", "P"]

/-- The list comprehension of `main.py` line 67: one `"k: v"` entry per
grade column whose cell is non-empty (Python truthiness of the string),
kept in column order. -/
def gradeParts (row : Row) : List String :=
  (row.filter (fun p => gradeKeys.contains p.1 && p.2 != "")).map
    (fun p => p.1 ++ ": " ++ p.2)

/-- One loop iteration of `_load_grade_history_csv` (`main.py` 62-82):
strip the keys, join the non-empty grade counts, synthesize the sentence
and provenance mapping.  `none` models the `KeyError` a missing required
column raises; `Instructor 2` and `Instructor 3` fall back to `"N/A"`. -/
def gradeHistoryRowDoc (fileName : String) (i : Nat) (rawRow : Row) : Option Document :=
  let row := stripKeys rawRow
  match lookup? row "Subject", lookup? row "Catalog Nbr",
        lookup? row "Section", lookup? row "Instructor 1" with
  | some subj, some cat, some sec, some inst1 =>
      let grade_str := String.intercalate ", " (gradeParts row)
      some
        { page_content :=
            "In a past semester, for course " ++ subj ++ " " ++ cat ++ " Section " ++ sec ++
            ", the instructor " ++ inst1 ++ " (and others: " ++ getD row "Instructor 2" "N/A" ++
            ", " ++ getD row "Instructor 3" "N/A" ++ ") gave the following grades: " ++
            grade_str ++ "."
          metadata :=
            [("source", .str fileName), ("row", .nat i),
             ("course", .str (subj ++ " " ++ cat)), ("professor", .str inst1)] }
  | _, _, _, _ => none

/-- One loop iteration of `_load_coursebook_csv` (`main.py` 94-108).
Every referenced column is required; `none` models the `KeyError`. -/
def coursebookRowDoc (fileName : String) (i : Nat) (row : Row) : Option Document := do
  let cp ← lookup? row "course_prefix"
  let cn ← lookup? row "course_number"
  let sec ← lookup? row "section"
  let cls ← lookup? row "class_number"
  let ttl ← lookup? row "title"
  let ins ← lookup? row "instructor_s"
  let dys ← lookup? row "days"
  let tms ← lookup? row "times_12h"
  let loc ← lookup? row "location"
  let est ← lookup? row "enrolled_status"
  let ecur ← lookup? row "enrolled_current"
  let emax ← lookup? row "enrolled_max"
  pure
    { page_content :=
        "Course Section: " ++ cp ++ " " ++ cn ++ "." ++ sec ++ " (Class Number: " ++ cls ++
        "). Title: " ++ ttl ++ ". Instructor: " ++ ins ++ ". Schedule: " ++ dys ++
        " from " ++ tms ++ ". Location: " ++ loc ++ ". Status: " ++ est ++ " (" ++
        ecur ++ "/" ++ emax ++ " enrolled)."
      metadata :=
        [("source", .str fileName), ("row", .nat i),
         ("course", .str (cp ++ " " ++ cn))] }

/-- The `for i, row in enumerate(reader)` loop of either adapter: an
exception at any row (`none`) aborts the whole file with no documents. -/
def loadRows (rowDoc : Nat → Row → Option Document) : Nat → List Row → Option (List Document)
  | _, [] => some []
  | i, r :: rs =>
    match rowDoc i r with
    | none => none
    | some d => (loadRows rowDoc (i + 1) rs).map (fun ds => d :: ds)

/-- `_load_grade_history_csv` over the data rows of one file. -/
def load_grade_history_csv (fileName : String) (rows : List Row) : Option (List Document) :=
  loadRows (gradeHistoryRowDoc fileName) 0 rows

/-- `_load_coursebook_csv` over the data rows of one file. -/
def load_coursebook_csv (fileName : String) (rows : List Row) : Option (List Document) :=
  loadRows (coursebookRowDoc fileName) 0 rows

/-- Fuel-indexed worker for `batch_generator`; each step yields the next
`b`-element slice and drops it.  The fuel (bounded below by the list
length) only forces termination: the recursion consumes at least one
element per step once `0 < b`. -/
def batchGo (b : Nat) : Nat → List α → List (List α)
  | 0, _ => []
  | _ + 1, [] => []
  | fuel + 1, a :: as => (a :: as).take b :: batchGo b fuel ((a :: as).drop b)

/-- `batch_generator` of `main.py` 49-52: `for i in range(0, len(data),
batch_size): yield data[i:i + batch_size]`, materialized as a list (the
caller wraps the generator in `list(...)`).  Python raises for a zero
step; the repository only calls it with `batch_size = 100`, and the
model returns `[]` on that dead branch. -/
def batch_generator (data : List α) (batch_size : Nat) : List (List α) :=
  if batch_size = 0 then [] else batchGo batch_size data.length data

/-- The FAISS vector store, modelled as the ordered list of
(text, metadata) pairs added to it by `from_texts`/`add_texts`. -/
structure Store where
  entries : List (String × Metadata)
  deriving DecidableEq

/-- One iteration of the batch loop of `get_vector_store` (`main.py`
203-217): `FAISS.from_texts` on the first batch, `add_texts` after. -/
def addBatch (acc : Option Store) (p : List String × List Metadata) : Option Store :=
  match acc with
  | none => some ⟨p.1.zip p.2⟩
  | some s => some ⟨s.entries ++ p.1.zip p.2⟩

/-- The batched index build of `get_vector_store` (`main.py` 193-217):
split texts and metadatas into 100-element batches separately, pair them
with `zip`, and fold the batch loop; `none` means no batch ran and the
store was never created. -/
def buildStore (texts : List String) (metadatas : List Metadata) : Option Store :=
  (((batch_generator texts 100).zip (batch_generator metadatas 100))).foldl addBatch none

/-- Observable effects of one `get_vector_store` run, in order. -/
inductive Event where
  | loadLocal | downloadRemote | build | saveLocal | archive | upload
  deriving DecidableEq

/-- Oracles for the external world during one `get_vector_store` run:
whether the local index directory exists, what the fallible third-party
calls return (`none`/`false` models a raised exception), the documents
the data directory yields after per-file skip-and-continue, and the
third-party text splitter. -/
structure Env where
  localExists : Bool
  localLoad : Option Store
  remoteFetch : Option Store
  docs : List Document
  split : List Document → List Document
  archiveOk : Bool
  uploadOk : Bool

/-- Result of a `get_vector_store` run: the returned store (`none` for
Python's `None`) and the trace of effects that happened. -/
structure RunResult where
  store : Option Store
  trace : List Event
  deriving DecidableEq

/-- Events of the zip-and-upload block (`main.py` 226-234): `make_archive`
then `upload_file` inside one `try`, so a failed archive skips the upload
and any failure is caught and logged. -/
def archiveEvents (env : Env) : List Event :=
  if env.archiveOk then
    if env.uploadOk then [.archive, .upload] else [.archive]
  else []

/-- The rebuild path of `get_vector_store` (`main.py` 148-236): if no
documents loaded, return `None` at once (line 179, before any save or
upload); otherwise split, build in batches, `save_local` when a store
exists (line 221), then attempt archive+upload, and return the store
regardless of that block's outcome. -/
def rebuild_from_documents (env : Env) : RunResult :=
  if env.docs.isEmpty then ⟨none, [.build]⟩
  else
    let chunks := env.split env.docs
    let texts := chunks.map (fun d => d.page_content)
    let metadatas := chunks.map (fun d => d.metadata)
    match buildStore texts metadatas with
    | some s => ⟨some s, [.build, .saveLocal] ++ archiveEvents env⟩
    | none => ⟨none, [.build] ++ archiveEvents env⟩

/-- The S3 fallback of `get_vector_store` (`main.py` 128-146): the
download is attempted; if download+unzip+load succeeds that store is
returned, otherwise the exception is caught and the rebuild runs. -/
def fetchFromS3 (env : Env) : RunResult :=
  match env.remoteFetch with
  | some s => ⟨some s, [.downloadRemote]⟩
  | none =>
    let r := rebuild_from_documents env
    ⟨r.store, .downloadRemote :: r.trace⟩

/-- `get_vector_store` (`main.py` 112-236): try the local index when its
directory exists (a load failure is caught, line 123), then S3, then the
rebuild. -/
def get_vector_store (env : Env) : RunResult :=
  if env.localExists then
    match env.localLoad with
    | some s => ⟨some s, [.loadLocal]⟩
    | none =>
      let r := fetchFromS3 env
      ⟨r.store, .loadLocal :: r.trace⟩
  else fetchFromS3 env

/-- Digit-string value; `none` when any character is not a digit.
`some 0` on the empty list (callers guard emptiness). -/
def digitsToNat (cs : List Char) : Option Nat :=
  cs.foldlM (fun acc c => if c.isDigit then some (acc * 10 + (c.toNat - 48)) else none) 0

/-- Model of `pandas.to_numeric(x, errors ... coerce)` on a cell string:
parse an optional sign, integer digits and an optional fractional part
after stripping surrounding whitespace; any other shape coerces to a
missing value (`none`), as `to_numeric` yields NaN. -/
def parseNumeric (s : String) : Option Rat :=
  let cs := (trimStr s).toList
  let signBody : Bool × List Char :=
    match cs with
    | '-' :: rest => (true, rest)
    | '+' :: rest => (false, rest)
    | _ => (false, cs)
  let body := signBody.2
  let intPart := body.takeWhile (fun c => c != '.')
  let restPart := body.dropWhile (fun c => c != '.')
  let mk : Rat → Option Rat := fun q => some (if signBody.1 then -q else q)
  match restPart with
  | [] =>
    if intPart.isEmpty then none
    else match digitsToNat intPart with
      | some n => mk n
      | none => none
  | _ :: frac =>
    if intPart.isEmpty && frac.isEmpty then none
    else match digitsToNat intPart, digitsToNat frac with
      | some n, some f => mk (mkRat (n * Nat.pow 10 frac.length + f) (Nat.pow 10 frac.length))
      | _, _ => none

/-- `Series.between(lo, hi)` on one cell: inclusive on both ends
(pandas default), and `False` on NaN (a coerced parse failure). -/
def pdBetween (x : Option Rat) (lo hi : Rat) : Bool :=
  match x with
  | none => false
  | some v => decide (lo ≤ v) && decide (v ≤ hi)

/-- One enrollment record, restricted to the two columns the filter
reads (the grade-history files name the number column `Catalog Nbr` or,
for Spring 2022, `Catalog Number`; both branches of
`filter_data_from_csv` apply the same predicate to it). -/
structure EnrollRow where
  subject : String
  catalogNbr : String
  deriving DecidableEq

/-- The row predicate of `filter_data.py` 11-22: `Subject == 'CS'` and
the coerced catalog number lies between 6000 and 7000. -/
def rowIncluded (r : EnrollRow) : Bool :=
  (r.subject == "CS") && pdBetween (parseNumeric r.catalogNbr) 6000 7000

/-- `filter_data_from_csv`, on the rows of one file: keep exactly the
rows satisfying the boolean mask. -/
def filter_data_from_csv (rows : List EnrollRow) : List EnrollRow :=
  rows.filter rowIncluded

/-- Request body of the `/query` route (`api.py`). -/
structure QueryRequest where
  question : String
  deriving DecidableEq

/-- Response body of the `/query` route (`api.py`). -/
structure QueryResponse where
  answer : String
  deriving DecidableEq

/-- `ask_question` (`api.py` 15-21) with the retrieval-and-LLM chain
stubbed as a function: invoke the chain on the question and wrap the
answer in the response object. -/
def ask_question (rag_invoke : String → String) (request : QueryRequest) : QueryResponse :=
  ⟨rag_invoke request.question⟩

/-- `ask_question` with a fallible chain: the handler body has no
`try`/`except`, so an exception raised by `rag_chain.invoke` propagates
out of the route handler unchanged. -/
def ask_questionE (rag_invoke : String → Except String String)
    (request : QueryRequest) : Except String QueryResponse :=
  (rag_invoke request.question).map QueryResponse.mk

/-- What the front end observes for one request (`frontend.py` 40-53):
either a raised `RequestException` or a response with a status code and
an optional `answer` field in the JSON body. -/
inductive HttpOutcome where
  | networkError (msg : String)
  | response (status : Nat) (answerField : Option String)
  deriving DecidableEq

/-- The per-request response handling of `frontend.py` 40-53: on status
200 take the `answer` field (with a fallback message), on any other
status or on a network exception produce an error string. -/
def frontend_answer : HttpOutcome → String
  | .networkError m => "Error: A network error occurred. " ++ m
  | .response status body =>
    if status = 200 then
      match body with
      | some a => a
      | none => "Sorry, I received an unexpected response."
    else "Error: Could not connect to the API. (Status code: " ++ toString status ++ ")"

/-! ### Concrete sample inputs, used to evaluate the development -/

/-- A one-entry store. -/
def sampleStore : Store := ⟨[("t", [])]⟩

/-- A one-chunk document. -/
def sampleDoc : Document := ⟨"t", []⟩

/-- Startup state with a loadable local index. -/
def envLocal : Env := ⟨true, some sampleStore, none, [], id, true, true⟩

/-- Startup state with no local directory and a loadable remote archive. -/
def envRemote : Env := ⟨false, none, some sampleStore, [], id, true, true⟩

/-- Startup state forcing a rebuild from one document; the upload step
fails. -/
def envRebuild : Env := ⟨false, none, none, [sampleDoc], id, true, false⟩

/-- Startup state where every source fails and no documents load. -/
def envEmpty : Env := ⟨false, none, none, [], id, true, true⟩

/-- A grade-history row with every expected column. -/
def sampleGradeRow : Row :=
  [("Subject", "CS"), ("Catalog Nbr", "6363"), ("Section", "001"),
   ("Instructor 1", "Doe, Jane"), ("A", "10"), ("B", "")]

/-- A grade-history row missing the required `Subject` and
`Catalog Nbr` columns. -/
def badGradeRow : Row :=
  [("Section", "002"), ("Instructor 1", "Roe, Max"), ("A", "5")]

/-- A coursebook row with every expected column. -/
def sampleCoursebookRow : Row :=
  [("course_prefix", "cs"), ("course_number", "6375"), ("section", "001"),
   ("class_number", "12345"), ("title", "Machine Learning"),
   ("instructor_s", "Doe, Jane"), ("days", "Tuesday, Thursday"),
   ("times_12h", "2:30 PM - 3:45 PM"), ("location", "AD_3.216"),
   ("enrolled_status", "Open"), ("enrolled_current", "50"),
   ("enrolled_max", "60")]

/-- The document the grade-history adapter is expected to emit for
`sampleGradeRow` as row 0 of `f.csv`. -/
def gradeSampleDoc : Document :=
  { page_content :=
      "In a past semester, for course CS 6363 Section 001, the instructor Doe, Jane (and others: N/A, N/A) gave the following grades: A: 10."
    metadata :=
      [("source", .str "f.csv"), ("row", .nat 0),
       ("course", .str "CS 6363"), ("professor", .str "Doe, Jane")] }

/-- The document the coursebook adapter is expected to emit for
`sampleCoursebookRow` as row 0 of `cb.csv`. -/
def coursebookSampleDoc : Document :=
  { page_content :=
      "Course Section: cs 6375.001 (Class Number: 12345). Title: Machine Learning. Instructor: Doe, Jane. Schedule: Tuesday, Thursday from 2:30 PM - 3:45 PM. Location: AD_3.216. Status: Open (50/60 enrolled)."
    metadata :=
      [("source", .str "cb.csv"), ("row", .nat 0), ("course", .str "cs 6375")] }

/-! ### Helper lemmas about the batching worker -/

theorem batchGo_nil (b fuel : Nat) : batchGo b fuel ([] : List α) = [] := by
  cases fuel <;> rfl

theorem batchGo_congr (b : Nat) (hb : 0 < b) :
    ∀ (f1 f2 : Nat) (data : List α), data.length ≤ f1 → data.length ≤ f2 →
      batchGo b f1 data = batchGo b f2 data := by
  intro f1
  induction f1 with
  | zero =>
    intro f2 data h1 _
    have hnil : data = [] := List.eq_nil_of_length_eq_zero (Nat.le_zero.mp h1)
    subst hnil
    simp [batchGo_nil]
  | succ n ih =>
    intro f2 data h1 h2
    cases data with
    | nil => simp [batchGo_nil]
    | cons a as =>
      cases f2 with
      | zero => simp at h2
      | succ m =>
        simp only [batchGo]
        congr 1
        apply ih
        · simp only [List.length_drop, List.length_cons] at h1 ⊢
          omega
        · simp only [List.length_drop, List.length_cons] at h2 ⊢
          omega

theorem batch_generator_nil (b : Nat) :
    batch_generator ([] : List α) b = [] := by
  unfold batch_generator
  split
  · rfl
  · exact batchGo_nil b 0

theorem batch_generator_cons (b : Nat) (hb : 0 < b) (a : α) (as : List α) :
    batch_generator (a :: as) b
      = (a :: as).take b :: batch_generator ((a :: as).drop b) b := by
  unfold batch_generator
  rw [if_neg (Nat.pos_iff_ne_zero.mp hb), if_neg (Nat.pos_iff_ne_zero.mp hb)]
  simp only [List.length_cons, batchGo]
  congr 1
  apply batchGo_congr b hb
  · simp only [List.length_drop, List.length_cons]
    omega
  · exact Nat.le_refl _

theorem batch_generator_ne_nil (b : Nat) (hb : 0 < b) (a : α) (as : List α) :
    batch_generator (a :: as) b ≠ [] := by
  rw [batch_generator_cons b hb a as]
  simp

theorem batch_generator_flatten_aux (b : Nat) (hb : 0 < b) :
    ∀ (fuel : Nat) (data : List α), data.length ≤ fuel →
      (batch_generator data b).flatten = data := by
  intro fuel
  induction fuel with
  | zero =>
    intro data h
    have hnil : data = [] := List.eq_nil_of_length_eq_zero (Nat.le_zero.mp h)
    subst hnil
    simp [batch_generator_nil]
  | succ n ih =>
    intro data h
    cases data with
    | nil => simp [batch_generator_nil]
    | cons a as =>
      rw [batch_generator_cons b hb a as]
      rw [List.flatten_cons]
      rw [ih ((a :: as).drop b) (by simp only [List.length_drop, List.length_cons] at h ⊢; omega)]
      exact List.take_append_drop b (a :: as)

/-- Concatenating the yielded batches in order reproduces the list. -/
theorem batch_generator_flatten (b : Nat) (hb : 0 < b) (data : List α) :
    (batch_generator data b).flatten = data :=
  batch_generator_flatten_aux b hb data.length data (Nat.le_refl _)

theorem batch_generator_sizes_aux (b : Nat) (hb : 0 < b) :
    ∀ (fuel : Nat) (data : List α), data.length ≤ fuel →
      ∀ l ∈ batch_generator data b, 0 < l.length ∧ l.length ≤ b := by
  intro fuel
  induction fuel with
  | zero =>
    intro data h
    have hnil : data = [] := List.eq_nil_of_length_eq_zero (Nat.le_zero.mp h)
    subst hnil
    simp [batch_generator_nil]
  | succ n ih =>
    intro data h l hl
    cases data with
    | nil => simp [batch_generator_nil] at hl
    | cons a as =>
      rw [batch_generator_cons b hb a as] at hl
      rcases List.mem_cons.mp hl with hhead | htail
      · subst hhead
        constructor
        · simp only [List.length_take, List.length_cons]
          omega
        · simp only [List.length_take]
          omega
      · exact ih ((a :: as).drop b)
          (by simp only [List.length_drop, List.length_cons] at h ⊢; omega) l htail

/-- Every yielded batch is non-empty and holds at most `b` elements. -/
theorem batch_generator_sizes (b : Nat) (hb : 0 < b) (data : List α) :
    ∀ l ∈ batch_generator data b, 0 < l.length ∧ l.length ≤ b :=
  batch_generator_sizes_aux b hb data.length data (Nat.le_refl _)

theorem batch_generator_dropLast_aux (b : Nat) (hb : 0 < b) :
    ∀ (fuel : Nat) (data : List α), data.length ≤ fuel →
      ∀ l ∈ (batch_generator data b).dropLast, l.length = b := by
  intro fuel
  induction fuel with
  | zero =>
    intro data h
    have hnil : data = [] := List.eq_nil_of_length_eq_zero (Nat.le_zero.mp h)
    subst hnil
    simp [batch_generator_nil]
  | succ n ih =>
    intro data h l hl
    cases data with
    | nil => simp [batch_generator_nil] at hl
    | cons a as =>
      rw [batch_generator_cons b hb a as] at hl
      cases hrest : batch_generator ((a :: as).drop b) b with
      | nil => rw [hrest] at hl; simp at hl
      | cons y ys =>
        rw [hrest] at hl
        rw [List.dropLast_cons₂] at hl
        have hdrop_ne : (a :: as).drop b ≠ [] := by
          intro hcon
          rw [hcon, batch_generator_nil] at hrest
          exact List.noConfusion hrest
        have hblt : b < (a :: as).length := by
          by_contra hge
          exact hdrop_ne (List.drop_eq_nil_of_le (Nat.le_of_not_lt hge))
        rcases List.mem_cons.mp hl with hhead | htail
        · subst hhead
          simp only [List.length_take]
          omega
        · have := ih ((a :: as).drop b)
            (by simp only [List.length_drop, List.length_cons] at h ⊢; omega)
          rw [hrest] at this
          exact this l htail

/-- Every batch other than the last holds exactly `b` elements. -/
theorem batch_generator_dropLast (b : Nat) (hb : 0 < b) (data : List α) :
    ∀ l ∈ (batch_generator data b).dropLast, l.length = b :=
  batch_generator_dropLast_aux b hb data.length data (Nat.le_refl _)

theorem take_zip_eq (n : Nat) :
    ∀ (l1 : List α) (l2 : List β), (l1.zip l2).take n = (l1.take n).zip (l2.take n) := by
  induction n with
  | zero => intro l1 l2; simp
  | succ m ih =>
    intro l1 l2
    cases l1 with
    | nil => simp
    | cons a as =>
      cases l2 with
      | nil => simp
      | cons c cs => simp [List.zip_cons_cons, ih]

theorem drop_zip_eq (n : Nat) :
    ∀ (l1 : List α) (l2 : List β), (l1.zip l2).drop n = (l1.drop n).zip (l2.drop n) := by
  induction n with
  | zero => intro l1 l2; simp
  | succ m ih =>
    intro l1 l2
    cases l1 with
    | nil => simp
    | cons a as =>
      cases l2 with
      | nil => simp
      | cons c cs => simp [List.zip_cons_cons, ih]

theorem batch_generator_zip_aux (b : Nat) (hb : 0 < b) :
    ∀ (fuel : Nat) (l1 : List α) (l2 : List β), l1.length ≤ fuel → l1.length = l2.length →
      batch_generator (l1.zip l2) b
        = ((batch_generator l1 b).zip (batch_generator l2 b)).map (fun p => p.1.zip p.2) := by
  intro fuel
  induction fuel with
  | zero =>
    intro l1 l2 h1 hlen
    have hnil : l1 = [] := List.eq_nil_of_length_eq_zero (Nat.le_zero.mp h1)
    subst hnil
    simp [batch_generator_nil]
  | succ n ih =>
    intro l1 l2 h1 hlen
    cases l1 with
    | nil => simp [batch_generator_nil]
    | cons a as =>
      cases l2 with
      | nil => simp at hlen
      | cons c cs =>
        rw [List.zip_cons_cons, batch_generator_cons b hb (a, c) (as.zip cs),
            batch_generator_cons b hb a as, batch_generator_cons b hb c cs]
        rw [List.zip_cons_cons, List.map_cons]
        congr 1
        · rw [← List.zip_cons_cons, take_zip_eq]
        · rw [← List.zip_cons_cons, drop_zip_eq]
          apply ih
          · simp only [List.length_drop, List.length_cons] at h1 ⊢
            omega
          · simp only [List.length_drop, List.length_cons] at hlen ⊢
            omega

/-- Batching the element-wise pairing is the pairing of the batchings. -/
theorem batch_generator_zip (b : Nat) (hb : 0 < b) (l1 : List α) (l2 : List β)
    (hlen : l1.length = l2.length) :
    batch_generator (l1.zip l2) b
      = ((batch_generator l1 b).zip (batch_generator l2 b)).map (fun p => p.1.zip p.2) :=
  batch_generator_zip_aux b hb l1.length l1 l2 (Nat.le_refl _) hlen

theorem foldl_addBatch_some (ps : List (List String × List Metadata)) :
    ∀ (s : Store), ps.foldl addBatch (some s)
      = some ⟨s.entries ++ (ps.map (fun p => p.1.zip p.2)).flatten⟩ := by
  induction ps with
  | nil => intro s; simp
  | cons p ps ih =>
    intro s
    rw [List.foldl_cons]
    show ps.foldl addBatch (some ⟨s.entries ++ p.1.zip p.2⟩) = _
    rw [ih]
    simp

/-- The batch loop over non-empty, equally long text/metadata lists
creates a store holding exactly the paired entries, in order. -/
theorem buildStore_eq (texts : List String) (metadatas : List Metadata)
    (hlen : texts.length = metadatas.length) (hne : texts ≠ []) :
    buildStore texts metadatas = some ⟨texts.zip metadatas⟩ := by
  unfold buildStore
  cases texts with
  | nil => exact absurd rfl hne
  | cons t ts =>
    cases metadatas with
    | nil => simp at hlen
    | cons m ms =>
      have hzip := batch_generator_zip 100 (by omega) (t :: ts) (m :: ms) hlen
      cases hbt : batch_generator (t :: ts) 100 with
      | nil => exact absurd hbt (batch_generator_ne_nil 100 (by omega) t ts)
      | cons p1 prest =>
        cases hbm : batch_generator (m :: ms) 100 with
        | nil => exact absurd hbm (batch_generator_ne_nil 100 (by omega) m ms)
        | cons q1 qrest =>
          rw [List.zip_cons_cons, List.foldl_cons]
          show List.foldl addBatch (some ⟨[] ++ p1.zip q1⟩) (prest.zip qrest) = _
          rw [foldl_addBatch_some]
          have hflat := batch_generator_flatten 100 (by omega) ((t :: ts).zip (m :: ms))
          rw [hzip, hbt, hbm, List.zip_cons_cons] at hflat
          simp only [List.map_cons, List.flatten_cons] at hflat
          simp only [List.nil_append]
          rw [hflat]

/-! ### Helper lemmas about the ingestion adapters -/

theorem loadRows_length (rowDoc : Nat → Row → Option Document) :
    ∀ (rows : List Row) (i : Nat) (ds : List Document),
      loadRows rowDoc i rows = some ds → ds.length = rows.length := by
  intro rows
  induction rows with
  | nil =>
    intro i ds h
    simp only [loadRows, Option.some.injEq] at h
    subst h
    rfl
  | cons r rs ih =>
    intro i ds h
    simp only [loadRows] at h
    cases hr : rowDoc i r with
    | none => rw [hr] at h; exact absurd h (by simp)
    | some d =>
      rw [hr] at h
      cases hrec : loadRows rowDoc (i + 1) rs with
      | none => rw [hrec] at h; simp at h
      | some ds' =>
        rw [hrec] at h
        simp only [Option.map_some', Option.some.injEq] at h
        subst h
        simp only [List.length_cons, ih (i + 1) ds' hrec]

theorem loadRows_fail (rowDoc : Nat → Row → Option Document) :
    ∀ (rows : List Row) (i : Nat) (r : Row), r ∈ rows → (∀ j, rowDoc j r = none) →
      loadRows rowDoc i rows = none := by
  intro rows
  induction rows with
  | nil => intro i r hr _; simp at hr
  | cons a as ih =>
    intro i r hr hnone
    rcases List.mem_cons.mp hr with h1 | h2
    · subst h1
      simp only [loadRows, hnone i]
    · simp only [loadRows]
      cases ha : rowDoc i a with
      | none => rfl
      | some d =>
        rw [ih (i + 1) r h2 hnone]
        rfl

theorem gradeHistoryRowDoc_missing_subject (fileName : String) (i : Nat) (row : Row)
    (h : lookup? (stripKeys row) "Subject" = none) :
    gradeHistoryRowDoc fileName i row = none := by
  simp only [gradeHistoryRowDoc, h]

theorem gradeHistoryRowDoc_eq (fileName : String) (i : Nat) (row : Row)
    (subj cat sec inst1 : String)
    (h1 : lookup? (stripKeys row) "Subject" = some subj)
    (h2 : lookup? (stripKeys row) "Catalog Nbr" = some cat)
    (h3 : lookup? (stripKeys row) "Section" = some sec)
    (h4 : lookup? (stripKeys row) "Instructor 1" = some inst1) :
    gradeHistoryRowDoc fileName i row = some
      { page_content :=
          "In a past semester, for course " ++ subj ++ " " ++ cat ++ " Section " ++ sec ++
          ", the instructor " ++ inst1 ++ " (and others: " ++
          getD (stripKeys row) "Instructor 2" "N/A" ++ ", " ++
          getD (stripKeys row) "Instructor 3" "N/A" ++ ") gave the following grades: " ++
          String.intercalate ", " (gradeParts (stripKeys row)) ++ "."
        metadata :=
          [("source", .str fileName), ("row", .nat i),
           ("course", .str (subj ++ " " ++ cat)), ("professor", .str inst1)] } := by
  simp only [gradeHistoryRowDoc, h1, h2, h3, h4]

theorem coursebookRowDoc_eq (fileName : String) (i : Nat) (row : Row)
    (cp cn sec cls ttl ins dys tms loc est ecur emax : String)
    (h1 : lookup? row "course_prefix" = some cp)
    (h2 : lookup? row "course_number" = some cn)
    (h3 : lookup? row "section" = some sec)
    (h4 : lookup? row "class_number" = some cls)
    (h5 : lookup? row "title" = some ttl)
    (h6 : lookup? row "instructor_s" = some ins)
    (h7 : lookup? row "days" = some dys)
    (h8 : lookup? row "times_12h" = some tms)
    (h9 : lookup? row "location" = some loc)
    (h10 : lookup? row "enrolled_status" = some est)
    (h11 : lookup? row "enrolled_current" = some ecur)
    (h12 : lookup? row "enrolled_max" = some emax) :
    coursebookRowDoc fileName i row = some
      { page_content :=
          "Course Section: " ++ cp ++ " " ++ cn ++ "." ++ sec ++ " (Class Number: " ++ cls ++
          "). Title: " ++ ttl ++ ". Instructor: " ++ ins ++ ". Schedule: " ++ dys ++
          " from " ++ tms ++ ". Location: " ++ loc ++ ". Status: " ++ est ++ " (" ++
          ecur ++ "/" ++ emax ++ " enrolled)."
        metadata :=
          [("source", .str fileName), ("row", .nat i),
           ("course", .str (cp ++ " " ++ cn))] } := by
  simp only [coursebookRowDoc, h1, h2, h3, h4, h5, h6, h7, h8, h9, h10, h11, h12,
    Option.bind_eq_bind, Option.some_bind]
  rfl

/-! ### Helper lemmas about `get_vector_store` -/

theorem rebuild_trace_build (env : Env) :
    ∃ tl, (rebuild_from_documents env).trace = Event.build :: tl := by
  by_cases hd : env.docs.isEmpty
  · exact ⟨[], by simp [rebuild_from_documents, hd]⟩
  · cases hb : buildStore ((env.split env.docs).map (fun d => d.page_content))
        ((env.split env.docs).map (fun d => d.metadata)) with
    | none => exact ⟨archiveEvents env, by simp [rebuild_from_documents, hd, hb]⟩
    | some s =>
      exact ⟨Event.saveLocal :: archiveEvents env, by simp [rebuild_from_documents, hd, hb]⟩

/-! ### Claims -/

/-- C1: at startup `get_vector_store` prefers a loadable local index (the
run returns it and the trace shows no remote contact), then the remote
copy (returned with no rebuild), and rebuilds only when both local load
and remote fetch fail. -/
theorem c1_load_precedence (env : Env) :
    (∀ s : Store, env.localExists = true → env.localLoad = some s →
        get_vector_store env = ⟨some s, [Event.loadLocal]⟩)
  ∧ (∀ s : Store, env.localExists = false ∨ env.localLoad = none →
        env.remoteFetch = some s →
        (get_vector_store env).store = some s
          ∧ Event.build ∉ (get_vector_store env).trace
          ∧ Event.downloadRemote ∈ (get_vector_store env).trace)
  ∧ (env.localExists = false ∨ env.localLoad = none → env.remoteFetch = none →
        (get_vector_store env).store = (rebuild_from_documents env).store
          ∧ Event.build ∈ (get_vector_store env).trace) := by
  refine ⟨?_, ?_, ?_⟩
  · intro s hex hload
    simp [get_vector_store, hex, hload]
  · intro s hfail hremote
    rcases hfail with hex | hload
    · simp [get_vector_store, hex, fetchFromS3, hremote]
    · cases hex : env.localExists
      · simp [get_vector_store, hex, fetchFromS3, hremote]
      · simp [get_vector_store, hex, hload, fetchFromS3, hremote]
  · intro hfail hremote
    obtain ⟨tl, htl⟩ := rebuild_trace_build env
    have hs3 : fetchFromS3 env
        = ⟨(rebuild_from_documents env).store, .downloadRemote :: (rebuild_from_documents env).trace⟩ := by
      simp [fetchFromS3, hremote]
    rcases hfail with hex | hload
    · constructor
      · simp [get_vector_store, hex, hs3]
      · simp [get_vector_store, hex, hs3, htl]
    · cases hex : env.localExists
      · constructor
        · simp [get_vector_store, hex, hs3]
        · simp [get_vector_store, hex, hs3, htl]
      · constructor
        · simp [get_vector_store, hex, hload, hs3]
        · simp [get_vector_store, hex, hload, hs3, htl]

/-- C1 witness: the three branches at concrete startup states. -/
theorem c1_load_precedence_witness :
    get_vector_store envLocal = ⟨some sampleStore, [Event.loadLocal]⟩
  ∧ (get_vector_store envRemote).store = some sampleStore
      ∧ Event.build ∉ (get_vector_store envRemote).trace
      ∧ Event.downloadRemote ∈ (get_vector_store envRemote).trace
  ∧ ((get_vector_store envEmpty).store = (rebuild_from_documents envEmpty).store
      ∧ Event.build ∈ (get_vector_store envEmpty).trace) :=
  ⟨(c1_load_precedence envLocal).1 sampleStore rfl rfl,
   ((c1_load_precedence envRemote).2.1 sampleStore (Or.inl rfl) rfl).1,
   ((c1_load_precedence envRemote).2.1 sampleStore (Or.inl rfl) rfl).2.1,
   ((c1_load_precedence envRemote).2.1 sampleStore (Or.inl rfl) rfl).2.2,
   (c1_load_precedence envEmpty).2.2 (Or.inl rfl) rfl⟩

/-- C2: the index build batches the chunk list in consecutive batches of
exactly 100 (the last one holding the 1-100 chunk remainder), the batches
concatenate back to the original list, and the batch loop adds every
chunk's text and metadata to the store exactly once, in order. -/
theorem c2_batched_build (chunks : List Document) (hne : chunks ≠ []) :
    ((batch_generator (chunks.map (fun d => d.page_content)) 100).flatten
        = chunks.map (fun d => d.page_content))
  ∧ (∀ l ∈ (batch_generator (chunks.map (fun d => d.page_content)) 100).dropLast,
        l.length = 100)
  ∧ (∀ l ∈ batch_generator (chunks.map (fun d => d.page_content)) 100,
        1 ≤ l.length ∧ l.length ≤ 100)
  ∧ buildStore (chunks.map (fun d => d.page_content)) (chunks.map (fun d => d.metadata))
      = some ⟨chunks.map (fun d => (d.page_content, d.metadata))⟩ := by
  refine ⟨batch_generator_flatten 100 (by omega) _,
          batch_generator_dropLast 100 (by omega) _,
          fun l hl => ⟨(batch_generator_sizes 100 (by omega) _ l hl).1,
                       (batch_generator_sizes 100 (by omega) _ l hl).2⟩, ?_⟩
  rw [buildStore_eq _ _ (by simp)
        (fun h => hne (List.map_eq_nil_iff.mp h))]
  rw [List.zip_map']

/-- C2 witness: the build at a concrete one-chunk list. -/
theorem c2_batched_build_witness :
    (batch_generator ["t"] 100).flatten = ["t"]
  ∧ buildStore ["t"] [[]] = some ⟨[("t", [])]⟩ :=
  ⟨(c2_batched_build [sampleDoc] (by decide)).1,
   (c2_batched_build [sampleDoc] (by decide)).2.2.2⟩

/-- C8: when the index is rebuilt and a store is created, the run saves
locally first and only then archives and uploads; an archive/upload
failure is absorbed, the save stays in the trace, and the fresh store is
still returned. -/
theorem c8_persist_then_upload (env : Env) (s : Store)
    (hdocs : env.docs ≠ [])
    (hbuild : buildStore ((env.split env.docs).map (fun d => d.page_content))
        ((env.split env.docs).map (fun d => d.metadata)) = some s) :
    rebuild_from_documents env
        = ⟨some s, [Event.build, Event.saveLocal]
            ++ (if env.archiveOk then
                  if env.uploadOk then [Event.archive, Event.upload] else [Event.archive]
                else [])⟩
  ∧ (env.localExists = false ∨ env.localLoad = none → env.remoteFetch = none →
      (get_vector_store env).store = some s
        ∧ Event.saveLocal ∈ (get_vector_store env).trace) := by
  have hre : rebuild_from_documents env
      = ⟨some s, [Event.build, Event.saveLocal] ++ archiveEvents env⟩ := by
    unfold rebuild_from_documents
    rw [if_neg (by simpa using hdocs)]
    simp only [hbuild]
  refine ⟨by rw [hre]; rfl, ?_⟩
  intro hfail hremote
  have hs3 : fetchFromS3 env
      = ⟨some s, .downloadRemote :: ([Event.build, Event.saveLocal] ++ archiveEvents env)⟩ := by
    simp [fetchFromS3, hremote, hre]
  rcases hfail with hex | hload
  · constructor
    · simp [get_vector_store, hex, hs3]
    · simp [get_vector_store, hex, hs3]
  · cases hex : env.localExists
    · constructor
      · simp [get_vector_store, hex, hs3]
      · simp [get_vector_store, hex, hs3]
    · constructor
      · simp [get_vector_store, hex, hload, hs3]
      · simp [get_vector_store, hex, hload, hs3]

/-- C8 witness: a concrete rebuild whose upload step fails still saves
first and returns the store. -/
theorem c8_persist_then_upload_witness :
    rebuild_from_documents envRebuild
        = ⟨some sampleStore, [Event.build, Event.saveLocal, Event.archive]⟩
  ∧ (get_vector_store envRebuild).store = some sampleStore
  ∧ Event.saveLocal ∈ (get_vector_store envRebuild).trace := by
  have h := c8_persist_then_upload envRebuild sampleStore (by decide) (by decide)
  exact ⟨h.1, (h.2 (Or.inl rfl) rfl).1, (h.2 (Or.inl rfl) rfl).2⟩

/-- C9: with no local index, a failing remote fetch and no loadable
documents, `get_vector_store` returns `None` with nothing saved locally
and nothing uploaded. -/
theorem c9_no_docs_returns_none (env : Env)
    (h1 : env.localExists = false) (h2 : env.remoteFetch = none) (h3 : env.docs = []) :
    get_vector_store env = ⟨none, [Event.downloadRemote, Event.build]⟩
      ∧ Event.saveLocal ∉ (get_vector_store env).trace
      ∧ Event.upload ∉ (get_vector_store env).trace := by
  have heq : get_vector_store env = ⟨none, [Event.downloadRemote, Event.build]⟩ := by
    simp [get_vector_store, h1, fetchFromS3, h2, rebuild_from_documents, h3]
  refine ⟨heq, ?_, ?_⟩ <;> simp [heq]

/-- C9 witness: the all-failures startup state. -/
theorem c9_no_docs_returns_none_witness :
    get_vector_store envEmpty = ⟨none, [Event.downloadRemote, Event.build]⟩
      ∧ Event.saveLocal ∉ (get_vector_store envEmpty).trace
      ∧ Event.upload ∉ (get_vector_store envEmpty).trace :=
  c9_no_docs_returns_none envEmpty rfl rfl rfl

/-- C3 counterexample: a file with one well-formed row and one row
missing the required `Subject`/`Catalog Nbr` columns yields no documents
at all — the missing field does not degrade to a placeholder; it aborts
the whole file, including the well-formed row. -/
theorem c3_counterexample :
    load_grade_history_csv "filtered_Fall 2023.csv" [sampleGradeRow, badGradeRow] = none := by
  decide

/-- C3 (amended): only the optional `Instructor 2`/`Instructor 3` fields
of the grade-history adapter degrade to the `"N/A"` placeholder while the
row still yields its document; a row missing a required field (such as
`Subject`) raises instead, so the adapter returns no document for any row
of that file and `get_vector_store`'s per-file handler skips the file. -/
theorem c3_placeholder_only_optional (fileName : String) (i : Nat) (row : Row)
    (subj cat sec inst1 : String)
    (h1 : lookup? (stripKeys row) "Subject" = some subj)
    (h2 : lookup? (stripKeys row) "Catalog Nbr" = some cat)
    (h3 : lookup? (stripKeys row) "Section" = some sec)
    (h4 : lookup? (stripKeys row) "Instructor 1" = some inst1)
    (h5 : lookup? (stripKeys row) "Instructor 2" = none)
    (h6 : lookup? (stripKeys row) "Instructor 3" = none) :
    gradeHistoryRowDoc fileName i row = some
      { page_content :=
          "In a past semester, for course " ++ subj ++ " " ++ cat ++ " Section " ++ sec ++
          ", the instructor " ++ inst1 ++ " (and others: " ++ "N/A" ++ ", " ++ "N/A" ++
          ") gave the following grades: " ++
          String.intercalate ", " (gradeParts (stripKeys row)) ++ "."
        metadata :=
          [("source", .str fileName), ("row", .nat i),
           ("course", .str (subj ++ " " ++ cat)), ("professor", .str inst1)] }
  ∧ (∀ (rows : List Row) (r : Row), r ∈ rows → lookup? (stripKeys r) "Subject" = none →
        load_grade_history_csv fileName rows = none) := by
  constructor
  · rw [gradeHistoryRowDoc_eq fileName i row subj cat sec inst1 h1 h2 h3 h4]
    simp [getD, h5, h6]
  · intro rows r hr hnone
    exact loadRows_fail (gradeHistoryRowDoc fileName) rows 0 r hr
      (fun j => gradeHistoryRowDoc_missing_subject fileName j r hnone)

/-- C3 (amended) witness: the concrete row without optional instructors,
and a concrete file aborted by a row missing `Subject`. -/
theorem c3_placeholder_only_optional_witness :
    gradeHistoryRowDoc "f.csv" 0 sampleGradeRow = some gradeSampleDoc
  ∧ load_grade_history_csv "f.csv" [sampleGradeRow, badGradeRow] = none := by
  have h := c3_placeholder_only_optional "f.csv" 0 sampleGradeRow "CS" "6363" "001" "Doe, Jane"
    (by decide) (by decide) (by decide) (by decide) (by decide) (by decide)
  constructor
  · rw [h.1]
    decide
  · exact h.2 [sampleGradeRow, badGradeRow] badGradeRow (by decide) (by decide)

/-- C4: on rows holding every expected field, each CSV adapter emits
exactly one document per row, whose text is the literal synthesized
sentence (grade history listing only the non-empty grade counts, joined
in column order) and whose provenance records the file name, zero-based
row index, course identifier and, for grade history, the first
instructor. -/
theorem c4_adapter_sentences :
    (∀ (fn : String) (rows : List Row) (ds : List Document),
        load_grade_history_csv fn rows = some ds → ds.length = rows.length)
  ∧ (∀ (fn : String) (rows : List Row) (ds : List Document),
        load_coursebook_csv fn rows = some ds → ds.length = rows.length)
  ∧ (∀ (fn : String) (i : Nat) (row : Row) (subj cat sec inst1 : String),
        lookup? (stripKeys row) "Subject" = some subj →
        lookup? (stripKeys row) "Catalog Nbr" = some cat →
        lookup? (stripKeys row) "Section" = some sec →
        lookup? (stripKeys row) "Instructor 1" = some inst1 →
        gradeHistoryRowDoc fn i row = some
          { page_content :=
              "In a past semester, for course " ++ subj ++ " " ++ cat ++ " Section " ++ sec ++
              ", the instructor " ++ inst1 ++ " (and others: " ++
              getD (stripKeys row) "Instructor 2" "N/A" ++ ", " ++
              getD (stripKeys row) "Instructor 3" "N/A" ++ ") gave the following grades: " ++
              String.intercalate ", " (gradeParts (stripKeys row)) ++ "."
            metadata :=
              [("source", .str fn), ("row", .nat i),
               ("course", .str (subj ++ " " ++ cat)), ("professor", .str inst1)] })
  ∧ (∀ (fn : String) (i : Nat) (row : Row)
        (cp cn sec cls ttl ins dys tms loc est ecur emax : String),
        lookup? row "course_prefix" = some cp →
        lookup? row "course_number" = some cn →
        lookup? row "section" = some sec →
        lookup? row "class_number" = some cls →
        lookup? row "title" = some ttl →
        lookup? row "instructor_s" = some ins →
        lookup? row "days" = some dys →
        lookup? row "times_12h" = some tms →
        lookup? row "location" = some loc →
        lookup? row "enrolled_status" = some est →
        lookup? row "enrolled_current" = some ecur →
        lookup? row "enrolled_max" = some emax →
        coursebookRowDoc fn i row = some
          { page_content :=
              "Course Section: " ++ cp ++ " " ++ cn ++ "." ++ sec ++ " (Class Number: " ++
              cls ++ "). Title: " ++ ttl ++ ". Instructor: " ++ ins ++ ". Schedule: " ++
              dys ++ " from " ++ tms ++ ". Location: " ++ loc ++ ". Status: " ++ est ++
              " (" ++ ecur ++ "/" ++ emax ++ " enrolled)."
            metadata :=
              [("source", .str fn), ("row", .nat i),
               ("course", .str (cp ++ " " ++ cn))] }) := by
  refine ⟨?_, ?_, ?_, ?_⟩
  · intro fn rows ds h
    exact loadRows_length (gradeHistoryRowDoc fn) rows 0 ds h
  · intro fn rows ds h
    exact loadRows_length (coursebookRowDoc fn) rows 0 ds h
  · intro fn i row subj cat sec inst1 h1 h2 h3 h4
    exact gradeHistoryRowDoc_eq fn i row subj cat sec inst1 h1 h2 h3 h4
  · intro fn i row cp cn sec cls ttl ins dys tms loc est ecur emax
      h1 h2 h3 h4 h5 h6 h7 h8 h9 h10 h11 h12
    exact coursebookRowDoc_eq fn i row cp cn sec cls ttl ins dys tms loc est ecur emax
      h1 h2 h3 h4 h5 h6 h7 h8 h9 h10 h11 h12

/-- C4 witness: both adapters at concrete well-formed rows, with the
one-document-per-row counts. -/
theorem c4_adapter_sentences_witness :
    gradeHistoryRowDoc "f.csv" 0 sampleGradeRow = some gradeSampleDoc
  ∧ coursebookRowDoc "cb.csv" 0 sampleCoursebookRow = some coursebookSampleDoc
  ∧ ([gradeSampleDoc] : List Document).length = [sampleGradeRow].length
  ∧ ([coursebookSampleDoc] : List Document).length = [sampleCoursebookRow].length := by
  have h := c4_adapter_sentences
  refine ⟨?_, ?_,
    h.1 "f.csv" [sampleGradeRow] [gradeSampleDoc] (by decide),
    h.2.1 "cb.csv" [sampleCoursebookRow] [coursebookSampleDoc] (by decide)⟩
  · rw [h.2.2.1 "f.csv" 0 sampleGradeRow "CS" "6363" "001" "Doe, Jane"
      (by decide) (by decide) (by decide) (by decide)]
    decide
  · rw [h.2.2.2 "cb.csv" 0 sampleCoursebookRow "cs" "6375" "001" "12345" "Machine Learning"
      "Doe, Jane" "Tuesday, Thursday" "2:30 PM - 3:45 PM" "AD_3.216" "Open" "50" "60"
      (by decide) (by decide) (by decide) (by decide) (by decide) (by decide)
      (by decide) (by decide) (by decide) (by decide) (by decide) (by decide)]
    decide

/-- The mask of `filter_data.py` characterized: a row passes exactly when
its subject is `CS` and its catalog number parses to a rational in the
closed interval [6000, 7000]. -/
theorem rowIncluded_iff (r : EnrollRow) :
    rowIncluded r = true ↔
      r.subject = "CS"
        ∧ ∃ q : Rat, parseNumeric r.catalogNbr = some q ∧ 6000 ≤ q ∧ q ≤ 7000 := by
  cases hp : parseNumeric r.catalogNbr with
  | none => simp [rowIncluded, pdBetween, hp]
  | some v => simp [rowIncluded, pdBetween, hp, and_assoc]

/-- C5: the tabular filter keeps a row exactly when its `Subject` is
`CS` and its numeric catalog number lies in the closed interval
[6000, 7000]; both endpoints are included, values outside the interval
and other subjects are excluded. -/
theorem c5_filter_boundary :
    (∀ (rows : List EnrollRow) (r : EnrollRow),
        r ∈ filter_data_from_csv rows ↔
          r ∈ rows ∧ r.subject = "CS"
            ∧ ∃ q : Rat, parseNumeric r.catalogNbr = some q ∧ 6000 ≤ q ∧ q ≤ 7000)
  ∧ rowIncluded ⟨"CS", "6000"⟩ = true
  ∧ rowIncluded ⟨"CS", "7000"⟩ = true
  ∧ rowIncluded ⟨"CS", "5999"⟩ = false
  ∧ rowIncluded ⟨"CS", "7001"⟩ = false
  ∧ rowIncluded ⟨"MATH", "6500"⟩ = false := by
  refine ⟨?_, by decide, by decide, by decide, by decide, by decide⟩
  intro rows r
  unfold filter_data_from_csv
  rw [List.mem_filter, rowIncluded_iff]

/-- C6: the `/query` handler, with the retrieval-and-LLM chain stubbed as
a function, maps the JSON question to a JSON object whose single `answer`
field is the chain's output for that question. -/
theorem c6_query_roundtrip (rag_invoke : String → String) (q : String) :
    ask_question rag_invoke ⟨q⟩ = ⟨rag_invoke q⟩ := rfl

/-- C7 counterexample: the HTTP route handler has no exception handling,
so an error raised by the chain propagates out of `ask_question` instead
of becoming a per-request generic error string. -/
theorem c7_counterexample :
    ask_questionE (fun _ => Except.error "ThrottlingException") ⟨"What CS tracks exist?"⟩
      = Except.error "ThrottlingException" := rfl

/-- C7 (amended): only the UI layer catches failures — a network
exception or a non-200 response becomes a per-request error string —
while the HTTP layer propagates the chain's exception out of the route
handler unchanged. -/
theorem c7_ui_catches_http_propagates :
    (∀ (f : String → Except String String) (q e : String),
        f q = Except.error e → ask_questionE f ⟨q⟩ = Except.error e)
  ∧ (∀ m : String, frontend_answer (.networkError m)
        = "Error: A network error occurred. " ++ m)
  ∧ (∀ (code : Nat) (body : Option String), code ≠ 200 →
        frontend_answer (.response code body)
          = "Error: Could not connect to the API. (Status code: " ++ toString code ++ ")") := by
  refine ⟨?_, fun m => rfl, ?_⟩
  · intro f q e h
    simp [ask_questionE, h, Except.map]
  · intro code body hcode
    simp [frontend_answer, hcode]

/-- C7 (amended) witness: a concrete failing chain propagates through the
route handler, and the UI turns concrete failures into error strings. -/
theorem c7_ui_catches_http_propagates_witness :
    ask_questionE (fun _ => Except.error "down") ⟨"q"⟩ = Except.error "down"
  ∧ frontend_answer (.networkError "timeout")
      = "Error: A network error occurred. " ++ "timeout"
  ∧ frontend_answer (.response 500 none)
      = "Error: Could not connect to the API. (Status code: " ++ toString (500 : Nat) ++ ")" := by
  have h := c7_ui_catches_http_propagates
  exact ⟨h.1 (fun _ => Except.error "down") "q" "down" rfl,
         h.2.1 "timeout",
         h.2.2 500 none (by decide)⟩

/-- C10: a catalog-number cell that does not parse as a number is coerced
to a missing value and the row is always excluded: the mask is `false` on
it and it never appears in the filter's output, with no error raised (the
filter is a total function). -/
theorem c10_coerced_rows_excluded (r : EnrollRow) (rows : List EnrollRow)
    (h : parseNumeric r.catalogNbr = none) :
    rowIncluded r = false ∧ r ∉ filter_data_from_csv rows := by
  have hinc : rowIncluded r = false := by
    simp [rowIncluded, pdBetween, h]
  refine ⟨hinc, fun hmem => ?_⟩
  have hpass := (List.mem_filter.mp hmem).2
  rw [hinc] at hpass
  exact Bool.noConfusion hpass

/-- C10 witness: a concrete unparsable catalog cell is excluded. -/
theorem c10_coerced_rows_excluded_witness :
    rowIncluded ⟨"CS", "N/A"⟩ = false
  ∧ (⟨"CS", "N/A"⟩ : EnrollRow) ∉ filter_data_from_csv [⟨"CS", "N/A"⟩] :=
  c10_coerced_rows_excluded ⟨"CS", "N/A"⟩ [⟨"CS", "N/A"⟩] (by decide)

end UTDCA
